import Mathlib

/-!
Shallow embedding of `src/main.py` (Agent Crafter API): the pydantic data
model, the persona responder functions, the `/api/agent/respond` handler
and the `/test` diagnostics probe, together with proofs of the spec claims.
-/

namespace AgentCrafter

/-- Python's `str.strip()` with no argument: remove leading and trailing
whitespace characters.  Embedded explicitly over the character list so the
claims about all-whitespace messages are provable. -/
def pyStrip (s : String) : String :=
  ⟨(((s.data.dropWhile Char.isWhitespace).reverse.dropWhile Char.isWhitespace).reverse)⟩

/-- `AgentRequest` (main.py lines 18-25).  At runtime the `role` field is a
plain string; the pydantic `Literal` restriction is enforced by the boundary
validation, modelled separately by `validateRequest`. -/
structure AgentRequest where
  role : String
  message : String
  context : Option String
deriving Repr, DecidableEq

/-- `AgentResponse` (main.py lines 28-31). -/
structure AgentResponse where
  role : String
  reply : String
  tips : List String
deriving Repr, DecidableEq

/-- `fastapi.HTTPException` as raised by the handler: status code and detail. -/
structure HTTPException where
  status : Nat
  detail : String
deriving Repr, DecidableEq

/-- Fixed prefix of the general reply, up to the embedded message
(main.py lines 91-94; Python concatenates the adjacent literals). -/
def generalPre : String :=
  "I'm your Agent Crafter assistant. Tell me what you want to achieve and I'll help break it down into clear steps. You said: '"

/-- Fixed suffix of the general reply, after the embedded message. -/
def generalSuf : String :=
  "'. Here's how we can proceed:"

/-- `_respond_general` (main.py lines 90-100). -/
def respondGeneral (message : String) : AgentResponse :=
  { role := "general"
    reply := generalPre ++ message ++ generalSuf
    tips := [
      "Be specific about your goal and constraints",
      "Share any examples or formats you prefer",
      "We can iterate until it feels right"] }

/-- Fixed prefix of the student reply, up to the embedded message
(main.py lines 104-106). -/
def studentPre : String :=
  "Let's approach this like a helpful study partner. We'll clarify the concept, give an example, and outline steps.\n\nQuestion/Topic: "

/-- Fixed suffix of the student reply, after the embedded message
(main.py lines 106-110). -/
def studentSuf : String :=
  "\n\n1) Concept overview: In simple terms, this is about understanding the core idea and how it connects to related topics.\n2) Quick example: We'll use a small, concrete example to make it stick.\n3) Study steps: Read -> Summarize -> Practice -> Review.\n"

/-- `_respond_student` (main.py lines 103-116). -/
def respondStudent (message : String) : AgentResponse :=
  { role := "student"
    reply := studentPre ++ message ++ studentSuf
    tips := [
      "Ask for a practice question if you'd like",
      "Say 'explain like I'm 12' for simpler wording",
      "We can create flashcards from any topic"] }

/-- Fixed prefix of the finance reply, up to the embedded message
(main.py lines 121-122). -/
def financePre : String :=
  "I am not a financial advisor, but I can offer general, educational guidance.\n\nTopic: "

/-- Fixed suffix of the finance reply, after the embedded message
(main.py lines 122-127). -/
def financeSuf : String :=
  "\n\nFramework:\n- Goal: Define time horizon and risk tolerance\n- Snapshot: Income, expenses, debts, and savings\n- Plan: Diversify, keep costs low, automate contributions\n- Risk note: Markets fluctuate; consider professional advice for decisions\n"

/-- `_respond_finance` (main.py lines 119-134). -/
def respondFinance (message : String) : AgentResponse :=
  { role := "finance"
    reply := financePre ++ message ++ financeSuf
    tips := [
      "We can outline a sample budget or emergency fund plan",
      "Ask for pros and cons of an option",
      "Request a checklist you can follow"] }

/-- Fixed prefix of the lawyer reply, up to the embedded message
(main.py lines 138-140). -/
def lawyerPre : String :=
  "I am not a lawyer, but I can provide general, educational information.\n\nIssue: "

/-- Fixed suffix of the lawyer reply, after the embedded message
(main.py lines 140-145). -/
def lawyerSuf : String :=
  "\n\nConsider:\n- Jurisdiction matters: laws vary by location\n- Definitions: clarify terms and parties involved\n- Process: typical steps, timelines, and documents\n- Disclaimer: For actionable advice, consult a licensed attorney\n"

/-- `_respond_lawyer` (main.py lines 137-152). -/
def respondLawyer (message : String) : AgentResponse :=
  { role := "lawyer"
    reply := lawyerPre ++ message ++ lawyerSuf
    tips := [
      "Share your location to get more tailored general info",
      "Ask for a plain-language summary of key terms",
      "We can draft a generic template for learning purposes"] }

/-- The role-keyed dispatch of `agent_respond` (main.py lines 161-167):
successive equality tests against the three special roles, every other
role value falling through to the general responder. -/
def dispatch (role : String) (message : String) : AgentResponse :=
  if role = "student" then respondStudent message
  else if role = "finance" then respondFinance message
  else if role = "lawyer" then respondLawyer message
  else respondGeneral message

/-- `agent_respond` (main.py lines 155-167): strip the message, reject an
empty result with HTTP 400, otherwise dispatch on the role. -/
def agentRespond (req : AgentRequest) : Except HTTPException AgentResponse :=
  let message := pyStrip req.message
  if message = "" then
    .error ⟨400, "Message cannot be empty"⟩
  else
    .ok (dispatch req.role message)

/-- Result of the Python `try: from database import db ...` probe in
`test_database` (main.py lines 56-79): the module load raises `ImportError`,
the load (or the subsequent handle inspection) raises some other exception,
the imported handle is `None`, or a handle is present, carrying an optional
`name` attribute and the outcome of `db.list_collection_names()` (a list of
names, or the exception's string). -/
inductive DbProbe where
  | importError
  | importException (e : String)
  | dbNone
  | dbSome (name : Option String) (listing : Except String (List String))
deriving Repr

/-- The two environment variables read by `test_database` (main.py lines
84-85), each as `os.getenv` returns it: `none` when unset, otherwise the
raw string value. -/
structure Env where
  database_url : Option String
  database_name : Option String
deriving Repr, DecidableEq

/-- Python truthiness of an `os.getenv` result, as used in
`"✅ Set" if _os.getenv(...) else "❌ Not Set"`: falsy when the variable is
unset or set to the empty string. -/
def envTruthy : Option String → Bool
  | none => false
  | some s => s ≠ ""

/-- The response dictionary of `test_database` (main.py lines 47-54).
`database_url` and `database_name` start as Python `None`, hence
`Option String`. -/
structure TestResponse where
  backend : String
  database : String
  database_url : Option String
  database_name : Option String
  connection_status : String
  collections : List String
deriving Repr, DecidableEq

/-- `test_database` (main.py lines 44-87), parametrised by the probe
outcome and the environment.  Every probe outcome is covered: the function
is total, mirroring the `try/except` blocks that absorb every failure. -/
def testDatabase (probe : DbProbe) (env : Env) : TestResponse :=
  let r0 : TestResponse :=
    { backend := "✅ Running"
      database := "❌ Not Available"
      database_url := none
      database_name := none
      connection_status := "Not Connected"
      collections := [] }
  let r1 :=
    match probe with
    | .importError =>
        { r0 with database := "❌ Database module not found (run enable-database first)" }
    | .importException e =>
        { r0 with database := "❌ Error: " ++ e.take 50 }
    | .dbNone =>
        { r0 with database := "⚠️  Available but not initialized" }
    | .dbSome name listing =>
        let r :=
          { r0 with
            database := "✅ Available"
            database_url := some "✅ Configured"
            database_name := some (match name with | some n => n | none => "✅ Connected")
            connection_status := "Connected" }
        match listing with
        | .ok collections =>
            { r with
              collections := collections.take 10
              database := "✅ Connected & Working" }
        | .error e =>
            { r with database := "⚠️  Connected but Error: " ++ e.take 50 }
  { r1 with
    database_url := some (if envTruthy env.database_url then "✅ Set" else "❌ Not Set")
    database_name := some (if envTruthy env.database_name then "✅ Set" else "❌ Not Set") }

/-- A raw request body for `POST /api/agent/respond`, before boundary
validation: each field may be absent. -/
structure RawRequest where
  role : Option String
  message : Option String
  context : Option String
deriving Repr, DecidableEq

/-- Modelled from the spec: the boundary validation that FastAPI/pydantic
performs for `AgentRequest` (framework code, not part of this repository)
over the schema declared at main.py lines 18-25 — a 422-class rejection
when `message` is missing or violates `min_length=1`, or when `role` is
present but not one of the four accepted literals; a missing `role`
defaults to `"general"`. -/
def validateRequest (raw : RawRequest) : Except Nat AgentRequest :=
  match raw.message with
  | none => .error 422
  | some m =>
    if m.length < 1 then .error 422
    else
      let role := raw.role.getD "general"
      if role ∈ ["general", "student", "finance", "lawyer"] then
        .ok ⟨role, m, raw.context⟩
      else
        .error 422

/-- The fixed reply text preceding the embedded message, per role,
following the dispatch of `agent_respond`. -/
def preFor (role : String) : String :=
  if role = "student" then studentPre
  else if role = "finance" then financePre
  else if role = "lawyer" then lawyerPre
  else generalPre

/-- The fixed reply text following the embedded message, per role,
following the dispatch of `agent_respond`. -/
def sufFor (role : String) : String :=
  if role = "student" then studentSuf
  else if role = "finance" then financeSuf
  else if role = "lawyer" then lawyerSuf
  else generalSuf

/-- The per-persona tips table transcribed from spec §4.1, for comparison
with the tips the source responders return. -/
def specTips (role : String) : List String :=
  if role = "student" then
    ["Ask for a practice question if you'd like",
     "Say 'explain like I'm 12' for simpler wording",
     "We can create flashcards from any topic"]
  else if role = "finance" then
    ["We can outline a sample budget or emergency fund plan",
     "Ask for pros and cons of an option",
     "Request a checklist you can follow"]
  else if role = "lawyer" then
    ["Share your location to get more tailored general info",
     "Ask for a plain-language summary of key terms",
     "We can draft a generic template for learning purposes"]
  else
    ["Be specific about your goal and constraints",
     "Share any examples or formats you prefer",
     "We can iterate until it feels right"]

/-- A string with no leading and no trailing whitespace character. -/
def noEdgeWhitespace (s : String) : Prop :=
  (∀ c ∈ s.data.head?, ¬ c.isWhitespace) ∧ (∀ c ∈ s.data.getLast?, ¬ c.isWhitespace)

/-! ### Helper lemmas -/

theorem dropWhile_eq_self_of_head {p : Char → Bool} :
    ∀ l : List Char, (∀ c ∈ l.head?, ¬ p c) → l.dropWhile p = l
  | [], _ => rfl
  | a :: t, h => by
    have ha : ¬ p a := h a rfl
    simp [List.dropWhile_cons, ha]

theorem pyStrip_eq_empty_iff (s : String) :
    pyStrip s = "" ↔ ∀ c ∈ s.data, c.isWhitespace := by
  unfold pyStrip
  rw [String.ext_iff]
  show (List.dropWhile Char.isWhitespace
      (List.dropWhile Char.isWhitespace s.data).reverse).reverse = [] ↔ _
  rw [List.reverse_eq_nil_iff, List.dropWhile_eq_nil_iff]
  constructor
  · intro h c hc
    rw [← List.takeWhile_append_dropWhile (p := Char.isWhitespace) (l := s.data),
      List.mem_append] at hc
    rcases hc with hc | hc
    · exact List.mem_takeWhile_imp hc
    · exact h c (List.mem_reverse.mpr hc)
  · intro h c hc
    rw [List.mem_reverse] at hc
    exact h c (List.dropWhile_subset _ hc)

theorem pyStrip_eq_self {s : String} (h : noEdgeWhitespace s) : pyStrip s = s := by
  obtain ⟨h1, h2⟩ := h
  unfold pyStrip
  rw [dropWhile_eq_self_of_head _ h1,
    dropWhile_eq_self_of_head _ (by rw [List.head?_reverse]; exact h2),
    List.reverse_reverse]

theorem agentRespond_ok {role msg : String} {ctx : Option String}
    (h : pyStrip msg ≠ "") :
    agentRespond ⟨role, msg, ctx⟩ = .ok (dispatch role (pyStrip msg)) := by
  simp [agentRespond, h]

theorem dispatch_reply (role msg : String) :
    (dispatch role msg).reply = preFor role ++ msg ++ sufFor role := by
  unfold dispatch preFor sufFor
  by_cases h1 : role = "student" <;> by_cases h2 : role = "finance" <;>
    by_cases h3 : role = "lawyer" <;>
      simp_all [respondStudent, respondFinance, respondLawyer, respondGeneral]

/-! ### Claim theorems -/

/-- C1: for every role among the four accepted literals and every message
that is non-empty after stripping, `agent_respond` returns a response whose
`role` field equals the canonical persona name of the selected role and
whose `tips` list is exactly the 3 entries of the spec §4.1 table, in the
fixed per-persona order. -/
theorem respond_role_and_tips (role msg : String) (ctx : Option String)
    (hrole : role ∈ (["general", "student", "finance", "lawyer"] : List String))
    (hmsg : pyStrip msg ≠ "") :
    ∃ resp, agentRespond ⟨role, msg, ctx⟩ = .ok resp ∧
      resp.role = role ∧ resp.tips = specTips role ∧ resp.tips.length = 3 := by
  refine ⟨dispatch role (pyStrip msg), agentRespond_ok hmsg, ?_⟩
  fin_cases hrole <;>
    simp [dispatch, specTips, respondGeneral, respondStudent, respondFinance, respondLawyer]

/-- Witness for C1 at the spec's own example: role `student`, message
`derivatives`. -/
theorem respond_role_and_tips_witness :
    ∃ resp, agentRespond ⟨"student", "derivatives", none⟩ = .ok resp ∧
      resp.role = "student" ∧ resp.tips = specTips "student" ∧ resp.tips.length = 3 :=
  respond_role_and_tips "student" "derivatives" none (by decide) (by decide)

/-- C2: the dispatcher selects the student, finance, or lawyer responder
exactly when the role equals the corresponding literal, and every other
role value falls through to the general responder; dispatch is total over
all role strings. -/
theorem dispatch_total_default (role msg : String) :
    (dispatch role msg = respondStudent msg ↔ role = "student") ∧
    (dispatch role msg = respondFinance msg ↔ role = "finance") ∧
    (dispatch role msg = respondLawyer msg ↔ role = "lawyer") ∧
    (role ∉ (["student", "finance", "lawyer"] : List String) →
      dispatch role msg = respondGeneral msg) := by
  unfold dispatch
  by_cases h1 : role = "student" <;> by_cases h2 : role = "finance" <;>
    by_cases h3 : role = "lawyer" <;>
      simp_all [respondStudent, respondFinance, respondLawyer, respondGeneral]

/-- Witness for C2 at an unexpected role value: `admin` resolves to the
general responder. -/
theorem dispatch_total_default_witness :
    dispatch "admin" "hello" = respondGeneral "hello" :=
  (dispatch_total_default "admin" "hello").2.2.2 (by decide)

/-- C3 counterexample: for the message `" hi "` (non-empty after stripping
but carrying edge whitespace) and role `student`, the reply embeds the
stripped text `"hi"`, not the original message, at the labeled position:
the reply does not contain the exact original message verbatim. -/
theorem reply_verbatim_counterexample :
    agentRespond ⟨"student", " hi ", none⟩ = .ok (respondStudent "hi") ∧
    (respondStudent "hi").reply ≠ studentPre ++ " hi " ++ studentSuf := by
  refine ⟨rfl, ?_⟩
  decide

/-- C3 amended: for every role and every message that is non-empty after
stripping, the reply embeds the stripped message verbatim, unescaped and
unmodified, at the role's labeled position. -/
theorem reply_contains_trimmed (role msg : String) (ctx : Option String)
    (h : pyStrip msg ≠ "") :
    ∃ r, agentRespond ⟨role, msg, ctx⟩ = .ok r ∧
      r.reply = preFor role ++ pyStrip msg ++ sufFor role :=
  ⟨dispatch role (pyStrip msg), agentRespond_ok h, dispatch_reply role (pyStrip msg)⟩

/-- Witness for amended C3 at role `finance`, message `"  taxes  "`. -/
theorem reply_contains_trimmed_witness :
    ∃ r, agentRespond ⟨"finance", "  taxes  ", some "x"⟩ = .ok r ∧
      r.reply = preFor "finance" ++ pyStrip "  taxes  " ++ sufFor "finance" :=
  reply_contains_trimmed "finance" "  taxes  " (some "x") (by decide)

/-- C4: a request whose message strips to the empty string is rejected with
HTTP 400 and detail exactly `Message cannot be empty` (no responder runs:
the handler returns the error instead of a response), and a message that is
non-empty after stripping never triggers this error. -/
theorem empty_message_rejected (req : AgentRequest) :
    (pyStrip req.message = "" →
      agentRespond req = .error ⟨400, "Message cannot be empty"⟩) ∧
    (pyStrip req.message ≠ "" → ∃ r, agentRespond req = .ok r) := by
  constructor
  · intro h
    simp [agentRespond, h]
  · intro h
    exact ⟨dispatch req.role (pyStrip req.message), by simp [agentRespond, h]⟩

/-- Witness for C4 at the spec's own example: a whitespace-only message. -/
theorem empty_message_rejected_witness :
    agentRespond ⟨"general", "   ", none⟩ = .error ⟨400, "Message cannot be empty"⟩ :=
  (empty_message_rejected ⟨"general", "   ", none⟩).1 (by decide)

/-- C8: two requests that agree on role and message but differ in the
`context` field (including one having it absent) produce identical
results: no responder reads `context`. -/
theorem context_unused (role msg : String) (c1 c2 : Option String) :
    agentRespond ⟨role, msg, c1⟩ = agentRespond ⟨role, msg, c2⟩ := rfl

/-- C9: for every role and every message that is non-empty after stripping,
the text embedded at the labeled position is exactly `message.strip()`, and
when the message has no leading or trailing whitespace the embedded text
equals the message itself. -/
theorem embedded_text_is_stripped (role msg : String) (ctx : Option String)
    (h : pyStrip msg ≠ "") :
    ∃ r, agentRespond ⟨role, msg, ctx⟩ = .ok r ∧
      r.reply = preFor role ++ pyStrip msg ++ sufFor role ∧
      (noEdgeWhitespace msg → r.reply = preFor role ++ msg ++ sufFor role) := by
  refine ⟨dispatch role (pyStrip msg), agentRespond_ok h,
    dispatch_reply role (pyStrip msg), ?_⟩
  intro hnw
  rw [dispatch_reply, pyStrip_eq_self hnw]

/-- Witness for C9 at role `lawyer`, message `contract` (no edge
whitespace). -/
theorem embedded_text_is_stripped_witness :
    ∃ r, agentRespond ⟨"lawyer", "contract", none⟩ = .ok r ∧
      r.reply = preFor "lawyer" ++ pyStrip "contract" ++ sufFor "lawyer" ∧
      (noEdgeWhitespace "contract" →
        r.reply = preFor "lawyer" ++ "contract" ++ sufFor "lawyer") :=
  embedded_text_is_stripped "lawyer" "contract" none (by decide)

theorem testDatabase_database_url (p : DbProbe) (e : Env) :
    (testDatabase p e).database_url =
      some (if envTruthy e.database_url then "✅ Set" else "❌ Not Set") := by
  cases p with
  | importError => rfl
  | importException err => rfl
  | dbNone => rfl
  | dbSome name listing => cases listing <;> rfl

theorem testDatabase_database_name (p : DbProbe) (e : Env) :
    (testDatabase p e).database_name =
      some (if envTruthy e.database_name then "✅ Set" else "❌ Not Set") := by
  cases p with
  | importError => rfl
  | importException err => rfl
  | dbNone => rfl
  | dbSome name listing => cases listing <;> rfl

/-- C5: for every probe outcome and every environment, `GET /test` returns
a result normally — the backend field reads `✅ Running` on every path, and
each failure (module absent, other import-time exception, handle `None`,
or a failing collection listing) is reduced to its descriptive status
string in the `database` field; the probe has no error path. -/
theorem probe_total_and_absorbing (env : Env) (e : String)
    (name : Option String) (cols : List String) :
    (∀ probe, (testDatabase probe env).backend = "✅ Running") ∧
    (testDatabase .importError env).database =
      "❌ Database module not found (run enable-database first)" ∧
    (testDatabase (.importException e) env).database = "❌ Error: " ++ e.take 50 ∧
    (testDatabase .dbNone env).database = "⚠️  Available but not initialized" ∧
    (testDatabase (.dbSome name (.error e)) env).database =
      "⚠️  Connected but Error: " ++ e.take 50 ∧
    (testDatabase (.dbSome name (.ok cols)) env).database =
      "✅ Connected & Working" := by
  refine ⟨?_, rfl, rfl, rfl, rfl, rfl⟩
  intro probe
  cases probe with
  | importError => rfl
  | importException err => rfl
  | dbNone => rfl
  | dbSome name listing => cases listing <;> rfl

/-- C6 counterexample: two runs whose environments both have `DATABASE_URL`
and `DATABASE_NAME` set — one to empty strings, one to non-empty strings —
report different `database_url` fields, so the fields depend on the
variables' contents, not only on their being set. -/
theorem env_presence_counterexample :
    (testDatabase .importError ⟨some "", some ""⟩).database_url ≠
      (testDatabase .importError ⟨some "mongodb://h", some "db"⟩).database_url := by
  decide

/-- C6 amended: the `database_url` and `database_name` fields depend only
on the Python truthiness of `os.getenv` for each variable (unset and
set-to-empty both count as not set), take exactly the two indicator
values, and are independent of the probe outcome (module import success or
failure included). -/
theorem env_presence_only (p1 p2 : DbProbe) (e1 e2 : Env)
    (hu : envTruthy e1.database_url = envTruthy e2.database_url)
    (hn : envTruthy e1.database_name = envTruthy e2.database_name) :
    (testDatabase p1 e1).database_url = (testDatabase p2 e2).database_url ∧
    (testDatabase p1 e1).database_name = (testDatabase p2 e2).database_name ∧
    ((testDatabase p1 e1).database_url = some "✅ Set" ∨
      (testDatabase p1 e1).database_url = some "❌ Not Set") := by
  rw [testDatabase_database_url, testDatabase_database_url,
    testDatabase_database_name, testDatabase_database_name, hu, hn]
  refine ⟨rfl, rfl, ?_⟩
  by_cases h : envTruthy e2.database_url <;> simp [h]

/-- Witness for amended C6: a failed import with `DATABASE_URL` set to one
value and a successful probe with it set to another value agree on both
fields. -/
theorem env_presence_only_witness :
    (testDatabase .importError ⟨some "u1", none⟩).database_url =
      (testDatabase .dbNone ⟨some "u2", some ""⟩).database_url ∧
    (testDatabase .importError ⟨some "u1", none⟩).database_name =
      (testDatabase .dbNone ⟨some "u2", some ""⟩).database_name ∧
    ((testDatabase .importError ⟨some "u1", none⟩).database_url = some "✅ Set" ∨
      (testDatabase .importError ⟨some "u1", none⟩).database_url = some "❌ Not Set") :=
  env_presence_only .importError .dbNone ⟨some "u1", none⟩ ⟨some "u2", some ""⟩
    (by decide) (by decide)

/-- C7: the `collections` field always has at most 10 entries; when the
listing succeeds it is the first 10 (or fewer) names of the external
listing in order, and on every other path it is empty. -/
theorem collections_at_most_ten (p : DbProbe) (e : Env)
    (name : Option String) (cols : List String) (err : String) :
    (testDatabase p e).collections.length ≤ 10 ∧
    (testDatabase (.dbSome name (.ok cols)) e).collections = cols.take 10 ∧
    (testDatabase (.dbSome name (.error err)) e).collections = [] ∧
    (testDatabase .importError e).collections = [] ∧
    (testDatabase (.importException err) e).collections = [] ∧
    (testDatabase .dbNone e).collections = [] := by
  refine ⟨?_, rfl, rfl, rfl, rfl, rfl⟩
  cases p with
  | importError => simp [testDatabase]
  | importException err2 => simp [testDatabase]
  | dbNone => simp [testDatabase]
  | dbSome name2 listing =>
    cases listing with
    | ok cols2 =>
      show (cols2.take 10).length ≤ 10
      simp [List.length_take]
    | error err2 => simp [testDatabase]

/-- C10: a request whose message is the exactly-empty string is rejected by
the boundary validation (422-class) before the handler runs, and whenever a
validated request makes the handler raise at all (it only raises the 400
empty-message error), the message has length at least 1 and consists
entirely of whitespace characters. -/
theorem boundary_min_length (raw : RawRequest) (req : AgentRequest)
    (e : HTTPException) :
    (raw.message = some "" → validateRequest raw = .error 422) ∧
    (validateRequest raw = .ok req → agentRespond req = .error e →
      1 ≤ req.message.length ∧ ∀ c ∈ req.message.data, c.isWhitespace) := by
  constructor
  · intro h
    simp [validateRequest, h]
  · intro hok herr
    unfold validateRequest at hok
    cases hraw : raw.message with
    | none => rw [hraw] at hok; exact absurd hok (by simp)
    | some m =>
      rw [hraw] at hok
      dsimp only at hok
      by_cases hlen : m.length < 1
      · rw [if_pos hlen] at hok; exact absurd hok (by simp)
      · rw [if_neg hlen] at hok
        by_cases hrole : (raw.role.getD "general") ∈
            (["general", "student", "finance", "lawyer"] : List String)
        · rw [if_pos hrole] at hok
          have hreq : req = ⟨raw.role.getD "general", m, raw.context⟩ :=
            (Except.ok.inj hok).symm
          subst hreq
          refine ⟨show 1 ≤ m.length by omega, ?_⟩
          by_cases hstrip : pyStrip m = ""
          · exact (pyStrip_eq_empty_iff m).mp hstrip
          · rw [agentRespond_ok hstrip] at herr
            exact absurd herr (by simp)
        · rw [if_neg hrole] at hok; exact absurd hok (by simp)

/-- Witness for C10: the empty message is rejected at the boundary, and the
whitespace-only message `"  "` passes validation yet makes the handler
raise, with length ≥ 1 and all-whitespace content. -/
theorem boundary_min_length_witness :
    validateRequest ⟨some "student", some "", none⟩ = .error 422 ∧
    (1 ≤ ("  " : String).length ∧ ∀ c ∈ ("  " : String).data, c.isWhitespace) :=
  ⟨(boundary_min_length ⟨some "student", some "", none⟩
      ⟨"general", "x", none⟩ ⟨400, "Message cannot be empty"⟩).1 rfl,
   (boundary_min_length ⟨some "general", some "  ", none⟩
      ⟨"general", "  ", none⟩ ⟨400, "Message cannot be empty"⟩).2 rfl rfl⟩

end AgentCrafter
